import Mathlib

/-!
Shallow embedding of `slumber/__init__.py` (the dynamic REST client core):
the attribute-resolution mixin, the `Resource` handle with its call /
request / response pipeline, and the `API` root's last-response state.

Python strings are Lean `String`; Python byte strings are `List Nat`;
Python dicts used as keyword-argument or header maps are association
lists.  The HTTP transport (`requests.Session.request`) is an external
collaborator and is passed in as a function from requests to responses.
The `API` root's mutable `_status_code` / `_headers` pair is modelled by
explicit state passing of an `ApiState` value.

`slumber/utils.py`, `slumber/serialize.py` and `slumber/exceptions.py`
are not under `src/`; the definitions taken from them are modelled from
the spec and marked as such in their doc comments.
-/

namespace Slumber

/-- Raw response body: Python `resp.content` is either `bytes` or `str`. -/
inductive Content
  | bytes (b : List Nat)
  | text (s : String)
deriving DecidableEq

/-- Python truthiness of a body (`bool(resp.content)`): empty bytes/str are falsy. -/
def Content.truthy : Content → Bool
  | .bytes b => !b.isEmpty
  | .text s => !s.isEmpty

/-- A Python value as far as the pipeline observes it: `None`, a raw
bytes body, a raw text body, or a decoded structured object (opaque,
identified by a tag). -/
inductive PyVal
  | none
  | rawBytes (b : List Nat)
  | rawText (s : String)
  | obj (tag : String)
deriving DecidableEq

/-- The raw body as the Python value `resp.content` returned to the caller. -/
def Content.toPyVal : Content → PyVal
  | .bytes b => .rawBytes b
  | .text s => .rawText s

/-- Python truthiness of a value (`if not files:` in `_request`). -/
def PyVal.truthy : PyVal → Bool
  | .none => false
  | .rawBytes b => !b.isEmpty
  | .rawText s => !s.isEmpty
  | .obj _ => true

/-- `d.get(k, None)` on a Python string-keyed mapping (headers). -/
def headerGet (hs : List (String × String)) (k : String) : Option String :=
  (hs.find? (fun p => p.1 == k)).map (·.2)

/-- The transport's response: `status_code`, `headers`, `content`
(external collaborator contract, spec section 6). -/
structure Response where
  status_code : Nat
  headers : List (String × String)
  content : Content
deriving DecidableEq

/-- Modelled from the spec: a codec from the missing `slumber/serialize.py`
("exposes `encode(value) -> bytes|string`, `decode(bytes|string) -> value`,
and a fixed content-type string"); `decode` may fail, which surfaces as a
Python exception at the `loads` call site. -/
structure SerializerCodec where
  content_type : String
  loads : String → Except Unit PyVal
  dumps : PyVal → String

/-- Modelled from the spec: the Serializer Registry from the missing
`slumber/serialize.py` — "mapping from content-type string to codec
capability object, plus a chosen default codec". -/
structure Serializer where
  serializers : List SerializerCodec
  defaultCodec : SerializerCodec

/-- Modelled from the spec: `Serializer.get_serializer(content_type=...)` —
"registry resolution fails with a typed `SerializerNotAvailable` error when
asked for an unregistered type". -/
def Serializer.get_serializer (s : Serializer) (content_type : String) :
    Except Unit SerializerCodec :=
  match s.serializers.find? (fun c => c.content_type == content_type) with
  | some c => .ok c
  | none => .error ()

/-- Modelled from the spec: `Serializer.get_content_type()` — the
registry's configured-default codec's content-type string. -/
def Serializer.get_content_type (s : Serializer) : String :=
  s.defaultCodec.content_type

/-- Modelled from the spec: `Serializer.dumps(data)` encodes an outgoing
body via the default codec. -/
def Serializer.dumps (s : Serializer) (v : PyVal) : String :=
  s.defaultCodec.dumps v

/-- The handle's `self._store` dictionary.  The `api` back-reference in the
source store is modelled by explicit `ApiState` threading; `session` is an
opaque transport-handle identity (shared by reference across handles). -/
structure Store where
  base_url : String
  format : String
  append_slash : Bool
  session : Nat
  serializer : Serializer

/-- One entry of `ResourceAttributesMixin._methods`: `{method, has_data}`. -/
structure MethodSpec where
  method : String
  has_data : Bool
deriving DecidableEq

/-- The `_methods` table of `ResourceAttributesMixin`. -/
def methodsTable : List (String × MethodSpec) :=
  [("get", ⟨"GET", false⟩), ("head", ⟨"HEAD", false⟩),
   ("options", ⟨"OPTIONS", false⟩), ("post", ⟨"POST", true⟩),
   ("put", ⟨"PUT", true⟩), ("patch", ⟨"PATCH", true⟩),
   ("delete", ⟨"DELETE", true⟩)]

/-- `item in methods.keys()` lookup, returning the armed method spec. -/
def lookupMethod (item : String) : Option MethodSpec :=
  (methodsTable.find? (fun p => p.1 == item)).map (·.2)

/-- A `Resource` instance: its `_store` plus its `_call` slot
(`None` until a verb attribute is accessed). -/
structure ResourceState where
  store : Store
  call : Option MethodSpec

/-- Python `s.startswith(pre)`. -/
def pyStartsWith (s pre : String) : Bool :=
  pre.data.isPrefixOf s.data

/-- Python `s.endswith(suffix)`. -/
def pyEndsWith (s suffix : String) : Bool :=
  suffix.data.isSuffixOf s.data

/-- Modelled from the spec: `url_join` from the missing `slumber/utils.py`
— the parent's URL "joined with the segment (single `/` separator, no
double slashes, no segment dropped even if parent's URL already ends in
`/`)". -/
def url_join (base seg : String) : String :=
  if pyEndsWith base "/" then base ++ seg else base ++ "/" ++ seg

/-- Outcome of `ResourceAttributesMixin.__getattr__`: an `AttributeError`,
the same handle armed with a pending call, or a brand-new child `Resource`. -/
inductive GetattrResult
  | attrError (name : String)
  | armed (r : ResourceState)
  | child (r : ResourceState)

/-- `ResourceAttributesMixin.__getattr__(self, item)`: names starting with
`"_"` raise `AttributeError(item)`; verb names set `self._call` and return
the same object; any other name builds a new `Resource` whose store copies
the parent's with `base_url` replaced by `url_join(base_url, item)`
(`Resource.__init__` leaves the new handle's `_call` as `None`). -/
def ResourceAttributesMixin.getattr (r : ResourceState) (item : String) :
    GetattrResult :=
  if pyStartsWith item "_" then .attrError item
  else
    match lookupMethod item with
    | some m => .armed { r with call := some m }
    | none =>
        .child { store := { r.store with
                            base_url := url_join r.store.base_url item },
                 call := none }

/-- `Resource.url(self)`: `base_url`, with `"/"` appended when
`append_slash` is set and the URL does not already end in `"/"`. -/
def Resource.url (s : Store) : String :=
  if s.append_slash && !(pyEndsWith s.base_url "/") then s.base_url ++ "/"
  else s.base_url

/-- The body argument handed to the transport: either the (possibly
`None`) value passed through raw, or the serializer-encoded string. -/
inductive BodyData
  | raw (v : PyVal)
  | encoded (s : String)
deriving DecidableEq

/-- One issued HTTP request, as handed to
`session.request(method, url, data=..., params=..., files=..., headers=...)`. -/
structure Request where
  method : String
  url : String
  data : BodyData
  params : Option (List (String × PyVal))
  files : PyVal
  headers : List (String × String)
deriving DecidableEq

/-- Which typed failure class `_request` raises: the source raises
`HttpNotFoundError` for 404, `HttpClientError` for other 4xx and
`HttpServerError` for 5xx (classes live in the missing
`slumber/exceptions.py`; only their selection is in `src/`). -/
inductive HttpErrorKind
  | notFound
  | clientError
  | serverError
deriving DecidableEq

/-- The payload of a raised HTTP error: the formatted message (carrying
status code and request URL) plus the `response=` and `content=` keyword
arguments from the raise site. -/
structure HttpError where
  kind : HttpErrorKind
  message : String
  response : Response
  content : Content
deriving DecidableEq

/-- The request assembled by `Resource._request` before the transport is
invoked: headers always carry `accept`; without files they also carry
`content-type` and a non-`None` body is encoded via the serializer. -/
def Resource.buildRequest (store : Store) (method : String)
    (data files : PyVal) (params : Option (List (String × PyVal))) :
    Request :=
  let ct := store.serializer.get_content_type
  let headers :=
    if files.truthy then [("accept", ct)]
    else [("accept", ct), ("content-type", ct)]
  let dataOut : BodyData :=
    if files.truthy = false ∧ data ≠ PyVal.none then
      .encoded (store.serializer.dumps data)
    else .raw data
  ⟨method, Resource.url store, dataOut, params, files, headers⟩

/-- `Resource._request(self, method, data, files, params)`: build the
request, issue it through the shared session, then classify the status
code — 4xx raises a client error (404 the not-found subtype), 5xx raises
a server error, anything else is returned.  The issued request is
returned alongside the outcome. -/
def Resource.request (store : Store) (transport : Request → Response)
    (method : String) (data files : PyVal)
    (params : Option (List (String × PyVal))) :
    Request × Except HttpError Response :=
  let req := Resource.buildRequest store method data files params
  let resp := transport req
  let url := Resource.url store
  if 400 ≤ resp.status_code ∧ resp.status_code ≤ 499 then
    (req, .error
      { kind := if resp.status_code = 404 then .notFound else .clientError,
        message := "Client Error " ++ toString resp.status_code ++ ": " ++ url,
        response := resp, content := resp.content })
  else if 500 ≤ resp.status_code ∧ resp.status_code ≤ 599 then
    (req, .error
      { kind := .serverError,
        message := "Server Error " ++ toString resp.status_code ++ ": " ++ url,
        response := resp, content := resp.content })
  else (req, .ok resp)

/-- Truthiness of `resp.headers.get("content-type", None)`: falsy when the
header is absent or the empty string. -/
def contentTypeTruthy (resp : Response) : Bool :=
  ((headerGet resp.headers "content-type").getD "") != ""

/-- `s.split(";")[0]` as characters: everything before the first `';'`. -/
def charsBeforeSemicolon : List Char → List Char
  | [] => []
  | c :: cs => if c = ';' then [] else c :: charsBeforeSemicolon cs

/-- Python `s.strip()`: drop whitespace from both ends. -/
def pyStrip (s : String) : String :=
  ⟨(((s.data.dropWhile Char.isWhitespace).reverse.dropWhile
      Char.isWhitespace).reverse)⟩

/-- `resp.headers.get("content-type").split(";")[0].strip()`. -/
def responseContentType (resp : Response) : String :=
  pyStrip ⟨charsBeforeSemicolon
    ((headerGet resp.headers "content-type").getD "").data⟩

/-- `Resource._try_to_serialize_response(self, resp)`.  `guessDecode`
models `requests.utils.guess_json_utf(resp.content)` followed by
`resp.content.decode(encoding)` (external library code): it turns a bytes
body into text or fails.  For a bytes body, every failure inside the
`try` (encoding guess, byte decoding, or `stype.loads`) is caught by the
bare `except:` and the raw content is returned; for a text body the
`stype.loads(resp.content)` call sits outside any `try` and its failure
propagates. -/
def Resource.tryToSerializeResponse (store : Store)
    (guessDecode : List Nat → Except Unit String) (resp : Response) :
    Except Unit PyVal :=
  let s := store.serializer
  if resp.status_code = 204 ∨ resp.status_code = 205 then .ok .none
  else if contentTypeTruthy resp && resp.content.truthy then
    match s.get_serializer (responseContentType resp) with
    | .error _ => .ok resp.content.toPyVal
    | .ok stype =>
        match resp.content with
        | .bytes b =>
            .ok (match (guessDecode b).bind stype.loads with
                 | .ok v => v
                 | .error _ => (Content.bytes b).toPyVal)
        | .text t => stype.loads t
  else .ok resp.content.toPyVal

/-- The `API` root's mutable last-response pair: `_status_code` and
`_headers`, unset until `_set_response` first runs (read through the
`status_code` / `headers` properties). -/
structure ApiState where
  status_code : Option Nat
  headers : Option (List (String × String))
deriving DecidableEq

/-- `API._set_response(self, resp)`. -/
def API.set_response (_api : ApiState) (resp : Response) : ApiState :=
  { status_code := some resp.status_code, headers := some resp.headers }

/-- `Resource._process_response(self, resp)`: record the response on the
owning API root, then decode 2xx bodies and return `None` for every other
(non-raising) status. -/
def Resource.processResponse (store : Store)
    (guessDecode : List Nat → Except Unit String) (api : ApiState)
    (resp : Response) : Except Unit PyVal × ApiState :=
  let api' := API.set_response api resp
  if 200 ≤ resp.status_code ∧ resp.status_code ≤ 299 then
    (Resource.tryToSerializeResponse store guessDecode resp, api')
  else (.ok .none, api')

/-- A raised Python exception as the pipeline observes it. -/
inductive PyError
  | attributeError (name : String)
  | keyError (k : String)
  | httpError (e : HttpError)
  | decodeError
deriving DecidableEq

/-- `kwargs.pop(k, None)`: the removed value (or `None`) and the rest. -/
def kwargsPop (kwargs : List (String × PyVal)) (k : String) :
    PyVal × List (String × PyVal) :=
  (((kwargs.find? (fun p => p.1 == k)).map (·.2)).getD .none,
   kwargs.filter (fun p => p.1 != k))

/-- `Resource._perform_action(self, **kwargs)`: for a `has_data` verb pop
`data` and `files` and pass the rest as query parameters, otherwise pass
every keyword as a query parameter; then `_request` followed by
`_process_response`.  The result also carries the updated API state and
the list of requests issued. -/
def Resource.performAction (store : Store) (c : MethodSpec)
    (kwargs : List (String × PyVal))
    (guessDecode : List Nat → Except Unit String) (api : ApiState)
    (transport : Request → Response) :
    Except PyError PyVal × ApiState × List Request :=
  let reqOut :=
    if c.has_data then
      let dataPop := kwargsPop kwargs "data"
      let filesPop := kwargsPop dataPop.2 "files"
      Resource.request store transport c.method dataPop.1 filesPop.1
        (some filesPop.2)
    else Resource.request store transport c.method .none .none (some kwargs)
  match reqOut with
  | (req, .error e) => (.error (.httpError e), api, [req])
  | (req, .ok resp) =>
      match Resource.processResponse store guessDecode api resp with
      | (.error _, api') => (.error .decodeError, api', [req])
      | (.ok v, api') => (.ok v, api', [req])

/-- What an invocation evaluates to when no exception is raised: the same
handle (the empty-rebind short circuit) or a Python value (armed path). -/
inductive CallValue
  | selfReturn (r : ResourceState)
  | value (v : PyVal)

/-- `'%s' % res_id` as the missing `url_join` would receive it: the
source's rebind guard reads `if id is not None:` — `id` being the Python
builtin, the guard is always true — so `url_join` is also reached with
`res_id = None`, which Python %-formatting renders as `"None"`. -/
def pyFormatId : Option String → String
  | some s => s
  | none => "None"

/-- The kwargs dictionary assembled by the rebinding arm of
`Resource.__call__` before `self._get_resource(**kwargs)` is attempted:
copy the store, unconditionally rejoin `base_url` with `res_id` (the
`id is not None` guard is always true), then apply the format and URL
overrides; `session` is re-stored unchanged. -/
def Resource.rebindStore (store : Store)
    (res_id res_format url_override : Option String) : Store :=
  let st1 := { store with
               base_url := url_join store.base_url (pyFormatId res_id) }
  let st2 := match res_format with
             | some f => { st1 with format := f }
             | none => st1
  match url_override with
  | some u => { st2 with base_url := u }
  | none => st2

/-- `Resource.__call__(self, res_id, res_format, url_override, **kwargs)`:
an armed handle performs its pending call with the keyword arguments
(ignoring the three positional parameters); an unarmed handle returns
itself when all three are absent; otherwise the rebind kwargs are built
and `self._get_resource(**kwargs)` is attempted — `Resource` defines no
`_get_resource`, so the mixin's `__getattr__` raises
`AttributeError("_get_resource")` for the underscore-prefixed name. -/
def Resource.call (r : ResourceState)
    (res_id res_format url_override : Option String)
    (kwargs : List (String × PyVal))
    (guessDecode : List Nat → Except Unit String) (api : ApiState)
    (transport : Request → Response) :
    Except PyError CallValue × ApiState × List Request :=
  match r.call with
  | some c =>
      match Resource.performAction r.store c kwargs guessDecode api
              transport with
      | (.error e, api', tr) => (.error e, api', tr)
      | (.ok v, api', tr) => (.ok (.value v), api', tr)
  | none =>
      if res_id = none ∧ res_format = none ∧ url_override = none then
        (.ok (.selfReturn r), api, [])
      else
        let _kw := Resource.rebindStore r.store res_id res_format
                     url_override
        (.error (.attributeError "_get_resource"), api, [])

/-- `Resource._handle_redirect(self, resp, **kwargs)`:
`self(url_override=resp.headers["location"])` followed by
`resource_obj.get(**kwargs)`.  A missing `location` header raises
`KeyError`; when the rebind returns a handle, `.get` arms it and the call
fires; when the armed branch returned a plain value instead of a handle,
`.get` on that Python value is modelled as an attribute failure. -/
def Resource.handleRedirect (r : ResourceState) (resp : Response)
    (kwargs : List (String × PyVal))
    (guessDecode : List Nat → Except Unit String) (api : ApiState)
    (transport : Request → Response) :
    Except PyError CallValue × ApiState × List Request :=
  match headerGet resp.headers "location" with
  | none => (.error (.keyError "location"), api, [])
  | some loc =>
      match Resource.call r none none (some loc) [] guessDecode api
              transport with
      | (.error e, api', tr) => (.error e, api', tr)
      | (.ok (.selfReturn robj), api', tr) =>
          match ResourceAttributesMixin.getattr robj "get" with
          | .armed robj' =>
              match Resource.call robj' none none none kwargs guessDecode
                      api' transport with
              | (res, api'', tr2) => (res, api'', tr ++ tr2)
          | _ => (.error (.attributeError "get"), api', tr)
      | (.ok (.value _), api', tr) =>
          (.error (.attributeError "get"), api', tr)

/-! Concrete fixtures used by counterexamples and witnesses. -/

deriving instance DecidableEq for Except

/-- A registered json codec whose decode fails on every body, exhibiting a
decode-time failure (the spec's codec `decode` is fallible). -/
def failingJsonCodec : SerializerCodec :=
  ⟨"application/json", fun _ => .error (), fun _ => ""⟩

/-- A registry holding only the json codec, which is also the default. -/
def theSerializer : Serializer := ⟨[failingJsonCodec], failingJsonCodec⟩

/-- The store of the test suite's base resource:
`Resource(base_url="http://example/api/v1/test", format="json",
append_slash=False)` with session id 0. -/
def theStore : Store :=
  ⟨"http://example/api/v1/test", "json", false, 0, theSerializer⟩

/-- A byte-decoding stub that always fails (no recognizable encoding). -/
def gdFail : List Nat → Except Unit String := fun _ => .error ()

/-- A 200 response declaring json whose text body is unparsable. -/
def respBadJson : Response :=
  ⟨200, [("content-type", "application/json")], .text "not json"⟩

/-- A 200 response declaring json with a bytes body. -/
def respBytesJson : Response :=
  ⟨200, [("content-type", "application/json")], .bytes [123]⟩

/-- A 404 response. -/
def resp404 : Response := ⟨404, [("content-type", "application/json")], .text ""⟩

/-- A 201 creation response carrying a `location` header. -/
def resp201 : Response :=
  ⟨201, [("location", "http://example/api/v1/test/1")], .text ""⟩

/-- A 301 response: outside the 2xx, 4xx and 5xx classification ranges. -/
def resp301 : Response :=
  ⟨301, [("location", "http://example/api/v1/other")], .text ""⟩

/-- An API state recording an earlier 200 response. -/
def api200 : ApiState := ⟨some 200, some []⟩

/-! Helper lemmas. -/

/-- Appending `"/"` makes a string end with `"/"`. -/
theorem pyEndsWith_append_slash (t : String) :
    pyEndsWith (t ++ "/") "/" = true := by
  simp [pyEndsWith, String.data_append, List.isSuffixOf]

/-- Appending `"/"` changes the string. -/
theorem append_slash_ne (t : String) : t ++ "/" ≠ t := by
  intro h
  have hlen := congrArg String.length h
  rw [String.length_append] at hlen
  have h1 : ("/" : String).length = 1 := by decide
  omega

/-- The verb table recognizes exactly the seven HTTP verb names. -/
theorem lookupMethod_isSome_iff (item : String) :
    (lookupMethod item).isSome = true ↔
      item ∈ ["get", "head", "options", "post", "put", "patch", "delete"] := by
  constructor
  · intro h
    rw [lookupMethod, Option.isSome_map'] at h
    rcases Option.isSome_iff_exists.mp h with ⟨p, hp⟩
    have hmem := List.mem_of_find?_eq_some hp
    have hpred := List.find?_some hp
    rw [beq_iff_eq] at hpred
    fin_cases hmem <;> simp_all
  · intro h
    fin_cases h <;> decide

/-- C8: the URL computed at request time is `base_url` with a trailing `/`
appended iff `append_slash` is true and `base_url` does not already end in
`/`; with `append_slash` the URL always ends in `/`, and without it the
URL is exactly `base_url`. -/
theorem url_append_slash_semantics (s : Store) :
    (Resource.url s = s.base_url ++ "/" ↔
      s.append_slash = true ∧ pyEndsWith s.base_url "/" = false)
  ∧ (s.append_slash = true → pyEndsWith (Resource.url s) "/" = true)
  ∧ (s.append_slash = false → Resource.url s = s.base_url) := by
  rcases hA : s.append_slash <;> rcases hE : pyEndsWith s.base_url "/" <;>
    simp [Resource.url, hA, hE, append_slash_ne, pyEndsWith_append_slash] <;>
    exact fun h => append_slash_ne _ h.symm

/-- C8 witness: with `append_slash=false` the URL is exactly the base URL;
with `append_slash=true` it ends in `/`. -/
theorem url_append_slash_semantics_witness :
    Resource.url theStore = "http://example/api/v1/test"
  ∧ pyEndsWith (Resource.url { theStore with append_slash := true }) "/"
      = true :=
  ⟨(url_append_slash_semantics theStore).2.2 (by decide),
   (url_append_slash_semantics { theStore with append_slash := true }).2.1
     (by decide)⟩

/-- C1: attribute resolution is a three-way dispatch — the verb table
holds exactly the seven HTTP verb names; an underscore-prefixed name
raises `AttributeError`; a verb name arms `pending_call` with the
`{method, has_data}` record (`has_data` false exactly for
get/head/options) on the same handle; any other name yields a brand-new
`Resource` whose `base_url` is the parent's joined with the name and
whose other fields are copied, with `pending_call` unset. -/
theorem getattr_three_way_dispatch (r : ResourceState) (item : String) :
    ((lookupMethod item).isSome = true ↔
      item ∈ ["get", "head", "options", "post", "put", "patch", "delete"])
  ∧ (pyStartsWith item "_" = true →
      ResourceAttributesMixin.getattr r item = .attrError item)
  ∧ (∀ m, pyStartsWith item "_" = false → lookupMethod item = some m →
      ResourceAttributesMixin.getattr r item =
          .armed { r with call := some m }
        ∧ (m.has_data = false ↔
            item = "get" ∨ item = "head" ∨ item = "options"))
  ∧ (pyStartsWith item "_" = false → lookupMethod item = none →
      ∃ c, ResourceAttributesMixin.getattr r item = .child c
        ∧ c.store.base_url = url_join r.store.base_url item
        ∧ c.store.format = r.store.format
        ∧ c.store.append_slash = r.store.append_slash
        ∧ c.store.session = r.store.session
        ∧ c.store.serializer = r.store.serializer
        ∧ c.call = none) := by
  refine ⟨lookupMethod_isSome_iff item, ?_, ?_, ?_⟩
  · intro h
    simp [ResourceAttributesMixin.getattr, h]
  · intro m hpriv hm
    refine ⟨by simp [ResourceAttributesMixin.getattr, hpriv, hm], ?_⟩
    rw [lookupMethod] at hm
    rcases hfind : methodsTable.find? (fun p => p.1 == item) with _ | p <;>
      rw [hfind] at hm
    · cases hm
    · have hp2 : p.2 = m := by
        simpa using hm
      have hmem := List.mem_of_find?_eq_some hfind
      have hpred : p.1 = item := by
        simpa using List.find?_some hfind
      subst hp2
      subst hpred
      fin_cases hmem <;> decide
  · intro hpriv hm
    refine ⟨{ store := { r.store with
                         base_url := url_join r.store.base_url item },
              call := none },
      by simp [ResourceAttributesMixin.getattr, hpriv, hm],
      rfl, rfl, rfl, rfl, rfl, rfl⟩

/-- C1 witness: on the base store, `"post"` arms the handle with
`{POST, has_data=true}` and `"comments"` descends one path segment. -/
theorem getattr_three_way_dispatch_witness :
    ResourceAttributesMixin.getattr ⟨theStore, none⟩ "post" =
      .armed ⟨theStore, some ⟨"POST", true⟩⟩
  ∧ ∃ c, ResourceAttributesMixin.getattr ⟨theStore, none⟩ "comments" =
        .child c
      ∧ c.store.base_url = url_join theStore.base_url "comments"
      ∧ c.store.format = theStore.format
      ∧ c.store.append_slash = theStore.append_slash
      ∧ c.store.session = theStore.session
      ∧ c.store.serializer = theStore.serializer
      ∧ c.call = none :=
  ⟨((getattr_three_way_dispatch ⟨theStore, none⟩ "post").2.2.1
      ⟨"POST", true⟩ (by decide) (by decide)).1,
   (getattr_three_way_dispatch ⟨theStore, none⟩ "comments").2.2.2
      (by decide) (by decide)⟩

/-- C2: every 4xx response makes `_request` raise a client error (the
not-found subtype exactly for 404) carrying the status code and request
URL in its message plus the raw response and body; every 5xx raises the
server-error subtype with the same payload; 2xx raises nothing; and on a
4xx/5xx the full invocation's outcome is the typed failure — body
decoding is never reached. -/
theorem request_status_classification (store : Store)
    (transport : Request → Response) (method : String) (data files : PyVal)
    (params : Option (List (String × PyVal))) (c : MethodSpec)
    (kwargs : List (String × PyVal))
    (guessDecode : List Nat → Except Unit String) (api : ApiState)
    (resp : Response)
    (hresp : transport (Resource.buildRequest store method data files
      params) = resp) :
    (400 ≤ resp.status_code → resp.status_code ≤ 499 →
      (Resource.request store transport method data files params).2 =
        .error { kind := if resp.status_code = 404 then .notFound
                         else .clientError,
                 message := "Client Error " ++ toString resp.status_code
                   ++ ": " ++ Resource.url store,
                 response := resp, content := resp.content })
  ∧ (500 ≤ resp.status_code → resp.status_code ≤ 599 →
      (Resource.request store transport method data files params).2 =
        .error { kind := .serverError,
                 message := "Server Error " ++ toString resp.status_code
                   ++ ": " ++ Resource.url store,
                 response := resp, content := resp.content })
  ∧ (200 ≤ resp.status_code → resp.status_code ≤ 299 →
      (Resource.request store transport method data files params).2 =
        .ok resp)
  ∧ (∀ resp' : Response, (∀ q, transport q = resp') →
      400 ≤ resp'.status_code → resp'.status_code ≤ 599 →
      ∃ e, (Resource.performAction store c kwargs guessDecode api
        transport).1 = .error (.httpError e)) := by
  refine ⟨?_, ?_, ?_, ?_⟩
  · intro h1 h2
    simp only [Resource.request, hresp]
    split_ifs <;> first | rfl | omega
  · intro h1 h2
    simp only [Resource.request, hresp]
    split_ifs <;> first | rfl | omega
  · intro h1 h2
    simp only [Resource.request, hresp]
    split_ifs <;> first | rfl | omega
  · intro resp' hconst h1 h2
    cases hd : c.has_data <;>
      simp only [Resource.performAction, Resource.request, hd, hconst,
        Bool.false_eq_true, if_false, if_true] <;>
      split_ifs <;> first | exact ⟨_, rfl⟩ | omega

/-- C2 witness: a stub transport returning 404 raises the not-found
subtype with the status, URL, response and body attached, and the full
invocation surfaces that typed failure. -/
theorem request_status_classification_witness :
    (Resource.request theStore (fun _ => resp404) "GET" .none .none
        (some [])).2 =
      .error { kind := .notFound,
               message := "Client Error 404: http://example/api/v1/test",
               response := resp404, content := Content.text "" }
  ∧ ∃ e, (Resource.performAction theStore ⟨"GET", false⟩ [] gdFail api200
      (fun _ => resp404)).1 = .error (.httpError e) :=
  ⟨by
    have h := (request_status_classification theStore (fun _ => resp404)
      "GET" .none .none (some []) ⟨"GET", false⟩ [] gdFail api200 resp404
      rfl).1 (by decide) (by decide)
    simpa using h,
   (request_status_classification theStore (fun _ => resp404) "GET" .none
      .none (some []) ⟨"GET", false⟩ [] gdFail api200 resp404 rfl).2.2.2
      resp404 (fun _ => rfl) (by decide) (by decide)⟩

/-- C3 counterexample: a 200 response whose content-type has a registered
codec and whose unparsable body is TEXT makes decoding raise — the
failure of `stype.loads(resp.content)` on the text branch is not caught,
so it is surfaced to the caller instead of the raw body being returned. -/
theorem tryToSerialize_text_failure_surfaces :
    Resource.tryToSerializeResponse theStore gdFail respBadJson =
      .error () := by
  decide

/-- C3 (amended): for a successful response whose content-type has a
registered codec, decode-time failures are swallowed exactly when the
body is raw BYTES — any failure while guessing the encoding, decoding the
bytes or parsing makes the raw bytes come back unchanged, and a bytes
body can never surface an exception; a text body's parse failure
propagates (see the counterexample). -/
theorem tryToSerialize_bytes_lenient (store : Store)
    (guessDecode : List Nat → Except Unit String) (resp : Response)
    (b : List Nat) (hb : resp.content = .bytes b) :
    (∃ v, Resource.tryToSerializeResponse store guessDecode resp = .ok v)
  ∧ (∀ stype,
      store.serializer.get_serializer (responseContentType resp) =
        .ok stype →
      ¬(resp.status_code = 204 ∨ resp.status_code = 205) →
      (contentTypeTruthy resp && resp.content.truthy) = true →
      (guessDecode b).bind stype.loads = .error () →
      Resource.tryToSerializeResponse store guessDecode resp =
        .ok (.rawBytes b)) := by
  constructor
  · rw [Resource.tryToSerializeResponse]
    split_ifs with h204 hct
    · exact ⟨_, rfl⟩
    · rcases hser : store.serializer.get_serializer
        (responseContentType resp) with _ | stype
      · exact ⟨_, rfl⟩
      · rw [hb]
        exact ⟨_, rfl⟩
    · exact ⟨_, rfl⟩
  · intro stype hser h204 hct hfail
    rw [Resource.tryToSerializeResponse, if_neg h204, if_pos hct, hser, hb]
    simp [hfail, Content.toPyVal]

/-- C3 witness for the amended claim: a 200 json response with a BYTES
body that fails to decode returns the raw bytes unchanged. -/
theorem tryToSerialize_bytes_lenient_witness :
    Resource.tryToSerializeResponse theStore gdFail respBytesJson =
      .ok (.rawBytes [123]) :=
  (tryToSerialize_bytes_lenient theStore gdFail respBytesJson [123]
    rfl).2 failingJsonCodec rfl (by decide) (by decide) rfl

/-- Helper: `_request` returns the built request paired with the
classified outcome. -/
theorem request_eq (store : Store) (transport : Request → Response)
    (method : String) (data files : PyVal)
    (params : Option (List (String × PyVal))) (resp : Response)
    (hresp : transport (Resource.buildRequest store method data files
      params) = resp) :
    Resource.request store transport method data files params =
      (Resource.buildRequest store method data files params,
       if 400 ≤ resp.status_code ∧ resp.status_code ≤ 499 then
         .error { kind := if resp.status_code = 404 then .notFound
                          else .clientError,
                  message := "Client Error " ++ toString resp.status_code
                    ++ ": " ++ Resource.url store,
                  response := resp, content := resp.content }
       else if 500 ≤ resp.status_code ∧ resp.status_code ≤ 599 then
         .error { kind := .serverError,
                  message := "Server Error " ++ toString resp.status_code
                    ++ ": " ++ Resource.url store,
                  response := resp, content := resp.content }
       else .ok resp) := by
  simp only [Resource.request, hresp]
  split_ifs <;> rfl

/-- Helper: the outcome of `_perform_action` against a stub transport, by
status class — 4xx/5xx raise before `_process_response` (the API state is
untouched), any other status records the response, and only 2xx reaches
body decoding. -/
theorem performAction_cases (store : Store) (c : MethodSpec)
    (kwargs : List (String × PyVal))
    (guessDecode : List Nat → Except Unit String) (api : ApiState)
    (resp : Response) :
    ∃ req,
      (400 ≤ resp.status_code ∧ resp.status_code ≤ 599 →
        ∃ e, Resource.performAction store c kwargs guessDecode api
          (fun _ => resp) = (.error (.httpError e), api, [req]))
    ∧ (¬(400 ≤ resp.status_code ∧ resp.status_code ≤ 599) →
        ¬(200 ≤ resp.status_code ∧ resp.status_code ≤ 299) →
        Resource.performAction store c kwargs guessDecode api
          (fun _ => resp) = (.ok .none, API.set_response api resp, [req]))
    ∧ ((200 ≤ resp.status_code ∧ resp.status_code ≤ 299) →
        ∀ u v, (Resource.tryToSerializeResponse store guessDecode resp =
            .error u →
          Resource.performAction store c kwargs guessDecode api
            (fun _ => resp) =
            (.error .decodeError, API.set_response api resp, [req]))
        ∧ (Resource.tryToSerializeResponse store guessDecode resp = .ok v →
          Resource.performAction store c kwargs guessDecode api
            (fun _ => resp) =
            (.ok v, API.set_response api resp, [req]))) := by
  cases hd : c.has_data
  · refine ⟨Resource.buildRequest store c.method .none .none (some kwargs),
      ?_, ?_, ?_⟩
    · intro h
      simp only [Resource.performAction, hd, Bool.false_eq_true, if_false]
      rw [request_eq store _ c.method .none .none (some kwargs) resp rfl]
      by_cases h4 : 400 ≤ resp.status_code ∧ resp.status_code ≤ 499
      · rw [if_pos h4]
        exact ⟨_, rfl⟩
      · rw [if_neg h4, if_pos (by omega)]
        exact ⟨_, rfl⟩
    · intro h h2xx
      simp only [Resource.performAction, hd, Bool.false_eq_true, if_false]
      rw [request_eq store _ c.method .none .none (some kwargs) resp rfl,
        if_neg (by omega), if_neg (by omega)]
      simp [Resource.processResponse, API.set_response, h2xx]
    · intro h2xx u v
      constructor
      · intro hts
        simp only [Resource.performAction, hd, Bool.false_eq_true,
          if_false]
        rw [request_eq store _ c.method .none .none (some kwargs) resp rfl,
          if_neg (by omega), if_neg (by omega)]
        simp [Resource.processResponse, API.set_response, h2xx, hts]
      · intro hts
        simp only [Resource.performAction, hd, Bool.false_eq_true,
          if_false]
        rw [request_eq store _ c.method .none .none (some kwargs) resp rfl,
          if_neg (by omega), if_neg (by omega)]
        simp [Resource.processResponse, API.set_response, h2xx, hts]
  · refine ⟨Resource.buildRequest store c.method (kwargsPop kwargs "data").1
      (kwargsPop (kwargsPop kwargs "data").2 "files").1
      (some (kwargsPop (kwargsPop kwargs "data").2 "files").2),
      ?_, ?_, ?_⟩
    · intro h
      simp only [Resource.performAction, hd, if_true]
      rw [request_eq store _ c.method (kwargsPop kwargs "data").1
        (kwargsPop (kwargsPop kwargs "data").2 "files").1
        (some (kwargsPop (kwargsPop kwargs "data").2 "files").2) resp rfl]
      by_cases h4 : 400 ≤ resp.status_code ∧ resp.status_code ≤ 499
      · rw [if_pos h4]
        exact ⟨_, rfl⟩
      · rw [if_neg h4, if_pos (by omega)]
        exact ⟨_, rfl⟩
    · intro h h2xx
      simp only [Resource.performAction, hd, if_true]
      rw [request_eq store _ c.method (kwargsPop kwargs "data").1
        (kwargsPop (kwargsPop kwargs "data").2 "files").1
        (some (kwargsPop (kwargsPop kwargs "data").2 "files").2) resp rfl,
        if_neg (by omega), if_neg (by omega)]
      simp [Resource.processResponse, API.set_response, h2xx]
    · intro h2xx u v
      constructor
      · intro hts
        simp only [Resource.performAction, hd, if_true]
        rw [request_eq store _ c.method (kwargsPop kwargs "data").1
          (kwargsPop (kwargsPop kwargs "data").2 "files").1
          (some (kwargsPop (kwargsPop kwargs "data").2 "files").2) resp rfl,
          if_neg (by omega), if_neg (by omega)]
        simp [Resource.processResponse, API.set_response, h2xx, hts]
      · intro hts
        simp only [Resource.performAction, hd, if_true]
        rw [request_eq store _ c.method (kwargsPop kwargs "data").1
          (kwargsPop (kwargsPop kwargs "data").2 "files").1
          (some (kwargsPop (kwargsPop kwargs "data").2 "files").2) resp rfl,
          if_neg (by omega), if_neg (by omega)]
        simp [Resource.processResponse, API.set_response, h2xx, hts]

/-- C4 counterexample: a request answered 404 by the transport completes
(the transport returns a response) and raises the typed not-found
failure, yet the API root's last-response metadata keeps its previous
value — `_request` raises before `_process_response`, which is the only
place `_set_response` runs, so the root still reports the earlier 200. -/
theorem performAction_404_skips_recording :
    (Resource.performAction theStore ⟨"GET", false⟩ [] gdFail api200
      (fun _ => resp404)).2.1 = api200
  ∧ (Resource.performAction theStore ⟨"GET", false⟩ [] gdFail api200
      (fun _ => resp404)).2.1.status_code ≠ some resp404.status_code
  ∧ (Resource.performAction theStore ⟨"GET", false⟩ [] gdFail api200
      (fun _ => resp404)).1 =
      .error (.httpError ⟨.notFound,
        "Client Error 404: http://example/api/v1/test", resp404,
        .text ""⟩) := by
  refine ⟨by decide, by decide, by decide⟩

/-- C4 (amended): the root's last-response metadata is recorded, before
the result is returned, on every execution whose response status lies
outside 400–599; an execution answered with a 4xx or 5xx status raises
the typed failure without touching the root's metadata. -/
theorem performAction_recording_semantics (store : Store) (c : MethodSpec)
    (kwargs : List (String × PyVal))
    (guessDecode : List Nat → Except Unit String) (api : ApiState)
    (resp : Response) :
    (400 ≤ resp.status_code ∧ resp.status_code ≤ 599 →
      (Resource.performAction store c kwargs guessDecode api
        (fun _ => resp)).2.1 = api)
  ∧ (¬(400 ≤ resp.status_code ∧ resp.status_code ≤ 599) →
      (Resource.performAction store c kwargs guessDecode api
        (fun _ => resp)).2.1 =
        { status_code := some resp.status_code,
          headers := some resp.headers }) := by
  obtain ⟨req, h4, hother, h2⟩ :=
    performAction_cases store c kwargs guessDecode api resp
  constructor
  · intro h
    obtain ⟨e, he⟩ := h4 h
    rw [he]
  · intro h
    by_cases h2xx : 200 ≤ resp.status_code ∧ resp.status_code ≤ 299
    · rcases hts : Resource.tryToSerializeResponse store guessDecode resp
        with u | v
      · rw [((h2 h2xx) u PyVal.none).1 hts]
        rfl
      · rw [((h2 h2xx) () v).2 hts]
        rfl
    · rw [hother h h2xx]
      rfl

/-- C4 witness for the amended claim: after a 404 the metadata is
untouched, and after a 301 it records status and headers. -/
theorem performAction_recording_semantics_witness :
    (Resource.performAction theStore ⟨"GET", false⟩ [] gdFail api200
      (fun _ => resp404)).2.1 = api200
  ∧ (Resource.performAction theStore ⟨"GET", false⟩ [] gdFail api200
      (fun _ => resp301)).2.1 =
      { status_code := some 301,
        headers := some [("location", "http://example/api/v1/other")] } :=
  ⟨(performAction_recording_semantics theStore ⟨"GET", false⟩ [] gdFail
      api200 resp404).1 (by decide),
   (performAction_recording_semantics theStore ⟨"GET", false⟩ [] gdFail
      api200 resp301).2 (by decide)⟩

/-- C10: when the stubbed response status lies outside 200–299, 400–499
and 500–599 (for example 3xx), the armed invocation raises nothing and
returns `None` — no body decoding is attempted for any serializer or byte
decoder — after recording the response's status and headers on the API
root. -/
theorem performAction_unclassified_status (store : Store) (c : MethodSpec)
    (kwargs : List (String × PyVal))
    (guessDecode : List Nat → Except Unit String) (api : ApiState)
    (resp : Response)
    (h2 : ¬(200 ≤ resp.status_code ∧ resp.status_code ≤ 299))
    (h4 : ¬(400 ≤ resp.status_code ∧ resp.status_code ≤ 499))
    (h5 : ¬(500 ≤ resp.status_code ∧ resp.status_code ≤ 599)) :
    ∃ req, Resource.performAction store c kwargs guessDecode api
        (fun _ => resp) =
      (.ok .none, { status_code := some resp.status_code,
                    headers := some resp.headers }, [req]) := by
  obtain ⟨req, hfail, hother, hok⟩ :=
    performAction_cases store c kwargs guessDecode api resp
  exact ⟨req, hother (by omega) h2⟩

/-- C10 witness: a 301 response yields `None` with no exception, after
recording 301 and the response headers. -/
theorem performAction_unclassified_status_witness :
    ∃ req, Resource.performAction theStore ⟨"GET", false⟩ [] gdFail api200
        (fun _ => resp301) =
      (.ok .none, { status_code := some 301,
                    headers :=
                      some [("location", "http://example/api/v1/other")] },
        [req]) :=
  performAction_unclassified_status theStore ⟨"GET", false⟩ [] gdFail
    api200 resp301 (by decide) (by decide) (by decide)

/-- C5: the code's rebinding arm is broken — on an unarmed handle, every
invocation that supplies an identifier, a format override or a url
override raises `AttributeError("_get_resource")` (the `Resource` class
defines no `_get_resource`, so the mixin's `__getattr__` rejects the
underscore-prefixed lookup) instead of returning a rebound handle; only
the empty invocation's no-op short circuit survives.  No request is
issued in any of the three cases. -/
theorem call_rebinding_always_raises :
    Resource.call ⟨theStore, none⟩ none none none [] gdFail api200
      (fun _ => resp404) =
      (.ok (.selfReturn ⟨theStore, none⟩), api200, [])
  ∧ Resource.call ⟨theStore, none⟩ (some "42") none none [] gdFail api200
      (fun _ => resp404) =
      (.error (.attributeError "_get_resource"), api200, [])
  ∧ Resource.call ⟨theStore, none⟩ none (some "yaml") none [] gdFail
      api200 (fun _ => resp404) =
      (.error (.attributeError "_get_resource"), api200, [])
  ∧ Resource.call ⟨theStore, none⟩ none none
      (some "http://example/api/v1/test/1") [] gdFail api200
      (fun _ => resp404) =
      (.error (.attributeError "_get_resource"), api200, []) :=
  ⟨rfl, rfl, rfl, rfl⟩

/-- C6: the redirect helper never fires automatically — an armed POST
answered 201 with a `location` header issues exactly one request, against
the original URL with the original method, and returns the raw empty
body — but the explicit helper itself is broken: on an unarmed handle it
raises `AttributeError("_get_resource")` through `__call__`'s rebinding
arm before any GET is issued (the request trace stays empty). -/
theorem handleRedirect_broken_and_never_automatic :
    Resource.handleRedirect ⟨theStore, none⟩ resp201 [] gdFail api200
      (fun _ => resp404) =
      (.error (.attributeError "_get_resource"), api200, [])
  ∧ (Resource.performAction theStore ⟨"POST", true⟩
      [("data", .obj "payload")] gdFail api200 (fun _ => resp201)).2.2 =
      [⟨"POST", "http://example/api/v1/test", .encoded "", some [], .none,
        [("accept", "application/json"),
         ("content-type", "application/json")]⟩]
  ∧ (Resource.performAction theStore ⟨"POST", true⟩
      [("data", .obj "payload")] gdFail api200 (fun _ => resp201)).1 =
      .ok (.rawText "") :=
  ⟨rfl, by decide, by decide⟩

/-- C9: on a handle whose `pending_call` is set, the identifier, format
override and url override are all silently ignored — the invocation
equals the bare armed invocation with only the keyword parameters, and it
is exactly the armed execution (no rebinding happens). -/
theorem call_armed_ignores_rebind_args (r : ResourceState) (c : MethodSpec)
    (res_id res_format url_override : Option String)
    (kwargs : List (String × PyVal))
    (guessDecode : List Nat → Except Unit String) (api : ApiState)
    (transport : Request → Response) (h : r.call = some c) :
    Resource.call r res_id res_format url_override kwargs guessDecode api
        transport =
      Resource.call r none none none kwargs guessDecode api transport
  ∧ ∀ e v api' tr,
      (Resource.performAction r.store c kwargs guessDecode api transport =
          (.error e, api', tr) →
        Resource.call r res_id res_format url_override kwargs guessDecode
          api transport = (.error e, api', tr))
      ∧ (Resource.performAction r.store c kwargs guessDecode api transport
          = (.ok v, api', tr) →
        Resource.call r res_id res_format url_override kwargs guessDecode
          api transport = (.ok (.value v), api', tr)) := by
  refine ⟨by simp only [Resource.call, h], ?_⟩
  intro e v api' tr
  constructor
  · intro hp
    simp only [Resource.call, h, hp]
  · intro hp
    simp only [Resource.call, h, hp]

/-- C9 witness: an armed GET invoked with an identifier, a format
override and a url override behaves exactly as the bare invocation. -/
theorem call_armed_ignores_rebind_args_witness :
    Resource.call ⟨theStore, some ⟨"GET", false⟩⟩ (some "9") (some "yaml")
        (some "http://example/elsewhere") [] gdFail api200
        (fun _ => resp404) =
      Resource.call ⟨theStore, some ⟨"GET", false⟩⟩ none none none []
        gdFail api200 (fun _ => resp404) :=
  (call_armed_ignores_rebind_args ⟨theStore, some ⟨"GET", false⟩⟩
    ⟨"GET", false⟩ (some "9") (some "yaml")
    (some "http://example/elsewhere") [] gdFail api200
    (fun _ => resp404) rfl).1

/-- C7: decoding a successful response returns the raw body unchanged
both when the declared content-type (parameters after `;` stripped) has
no registered codec, and when the content-type header is missing/empty or
the body is empty. -/
theorem tryToSerialize_raw_fallbacks (store : Store)
    (guessDecode : List Nat → Except Unit String) (resp : Response)
    (h204 : ¬(resp.status_code = 204 ∨ resp.status_code = 205)) :
    ((contentTypeTruthy resp && resp.content.truthy) = true →
      store.serializer.get_serializer (responseContentType resp) =
        .error () →
      Resource.tryToSerializeResponse store guessDecode resp =
        .ok resp.content.toPyVal)
  ∧ ((contentTypeTruthy resp && resp.content.truthy) = false →
      Resource.tryToSerializeResponse store guessDecode resp =
        .ok resp.content.toPyVal) := by
  constructor
  · intro hct hser
    rw [Resource.tryToSerializeResponse, if_neg h204, if_pos hct, hser]
  · intro hct
    rw [Resource.tryToSerializeResponse, if_neg h204, if_neg (by
      simp [hct])]

/-- C7 witness: an unregistered content-type and a missing content-type
header both return the raw body unchanged on a 200. -/
theorem tryToSerialize_raw_fallbacks_witness :
    Resource.tryToSerializeResponse theStore gdFail
      ⟨200, [("content-type", "application/x-custom")], .text "hello"⟩ =
      .ok (.rawText "hello")
  ∧ Resource.tryToSerializeResponse theStore gdFail
      ⟨200, [], .text "plain"⟩ = .ok (.rawText "plain") :=
  ⟨(tryToSerialize_raw_fallbacks theStore gdFail
      ⟨200, [("content-type", "application/x-custom")], .text "hello"⟩
      (by decide)).1 (by decide) rfl,
   (tryToSerialize_raw_fallbacks theStore gdFail
      ⟨200, [], .text "plain"⟩ (by decide)).2 (by decide)⟩
